import Mathlib

/-!
Shallow embedding of the coop-api multiplayer server core (Rust sources under
`src/`), together with theorems settling the frozen claims about its spec.

Conventions of the embedding:
* `f64` / `f32` values are modelled as rationals (`ℚ`) for the entity
  bookkeeping and handlers, and as reals (`ℝ`) for the physics pre-step force
  computation, which genuinely needs a square root.  The `f32 as f64` casts of
  the source are exact, so the world-position arithmetic is modelled by plain
  addition.
* `Instant` timestamps and `Duration`s are rationals (seconds).
* `Uuid` player ids are natural numbers; object ids stay strings.
* `DashMap` containers are association lists; `get`/`get_mut` read and write
  the first entry with the given key, mirroring the map's single entry per key.
* Message sends are recorded as `(recipient, message)` pairs; fields carried
  verbatim by a handler and irrelevant to every claim (e.g. the random angular
  velocity written into `ObjectThrown`, quaternion renormalisation) are noted
  at the definition that omits them.
-/

namespace CoopApi

/-- A 3-component vector over a scalar type, standing for `nalgebra::Vector3`. -/
structure Vec3 (α : Type) where
  x : α
  y : α
  z : α
deriving DecidableEq, Repr

instance {α} [Add α] : Add (Vec3 α) := ⟨fun a b => ⟨a.x + b.x, a.y + b.y, a.z + b.z⟩⟩

instance {α} [Sub α] : Sub (Vec3 α) := ⟨fun a b => ⟨a.x - b.x, a.y - b.y, a.z - b.z⟩⟩

instance {α} [Neg α] : Neg (Vec3 α) := ⟨fun a => ⟨-a.x, -a.y, -a.z⟩⟩

instance {α} [Mul α] : SMul α (Vec3 α) := ⟨fun c v => ⟨c * v.x, c * v.y, c * v.z⟩⟩

instance {α} [Zero α] : Zero (Vec3 α) := ⟨⟨0, 0, 0⟩⟩

@[simp] theorem Vec3.add_x {α} [Add α] (a b : Vec3 α) : (a + b).x = a.x + b.x := rfl
@[simp] theorem Vec3.add_y {α} [Add α] (a b : Vec3 α) : (a + b).y = a.y + b.y := rfl
@[simp] theorem Vec3.add_z {α} [Add α] (a b : Vec3 α) : (a + b).z = a.z + b.z := rfl
@[simp] theorem Vec3.sub_x {α} [Sub α] (a b : Vec3 α) : (a - b).x = a.x - b.x := rfl
@[simp] theorem Vec3.sub_y {α} [Sub α] (a b : Vec3 α) : (a - b).y = a.y - b.y := rfl
@[simp] theorem Vec3.sub_z {α} [Sub α] (a b : Vec3 α) : (a - b).z = a.z - b.z := rfl
@[simp] theorem Vec3.neg_x {α} [Neg α] (a : Vec3 α) : (-a).x = -a.x := rfl
@[simp] theorem Vec3.neg_y {α} [Neg α] (a : Vec3 α) : (-a).y = -a.y := rfl
@[simp] theorem Vec3.neg_z {α} [Neg α] (a : Vec3 α) : (-a).z = -a.z := rfl
@[simp] theorem Vec3.smul_x {α} [Mul α] (c : α) (v : Vec3 α) : (c • v).x = c * v.x := rfl
@[simp] theorem Vec3.smul_y {α} [Mul α] (c : α) (v : Vec3 α) : (c • v).y = c * v.y := rfl
@[simp] theorem Vec3.smul_z {α} [Mul α] (c : α) (v : Vec3 α) : (c • v).z = c * v.z := rfl
@[simp] theorem Vec3.zero_x {α} [Zero α] : (0 : Vec3 α).x = 0 := rfl
@[simp] theorem Vec3.zero_y {α} [Zero α] : (0 : Vec3 α).y = 0 := rfl
@[simp] theorem Vec3.zero_z {α} [Zero α] : (0 : Vec3 α).z = 0 := rfl

theorem Vec3.eq_of_components {α} {a b : Vec3 α}
    (hx : a.x = b.x) (hy : a.y = b.y) (hz : a.z = b.z) : a = b := by
  cases a; cases b; cases hx; cases hy; cases hz; rfl

/-- Squared Euclidean norm (`magnitude()` squared in `nalgebra`). -/
def Vec3.normSq {α} [Add α] [Mul α] (v : Vec3 α) : α :=
  v.x * v.x + v.y * v.y + v.z * v.z

/-- Rational vector: entity bookkeeping (`f64`/`f32` fields of the source). -/
abbrev Q3 := Vec3 ℚ

/-- Real vector: physics forces, where a genuine square root is computed. -/
abbrev R3 := Vec3 ℝ

/-- Quaternion components carried verbatim by the handlers.  The source
renormalises (`UnitQuaternion::new_normalize`) when storing; no verified claim
depends on the rotation value, so components are carried as-is. -/
structure Rot where
  x : ℚ
  y : ℚ
  z : ℚ
  w : ℚ
deriving DecidableEq, Repr

/-- The identity quaternion. -/
def Rot.ident : Rot := ⟨0, 0, 0, 1⟩

/-- `Uuid` of a participant. -/
abbrev PlayerId := Nat

/-- `Instant` / `Duration`, in seconds. -/
abbrev Time := ℚ

/-- Association-list lookup: first entry with the key (`DashMap::get`). -/
def alookup {κ β : Type} [DecidableEq κ] : List (κ × β) → κ → Option β
  | [], _ => none
  | (k, v) :: rest, key => if k = key then some v else alookup rest key

/-- Update the first entry with the key in place (`DashMap::get_mut`). -/
def aupdate {κ β : Type} [DecidableEq κ] (f : β → β) : List (κ × β) → κ → List (κ × β)
  | [], _ => []
  | (k, v) :: rest, key =>
    if k = key then (k, f v) :: rest else (k, v) :: aupdate f rest key

/-- Remove the first entry with the key (`DashMap::remove`). -/
def aremove {κ β : Type} [DecidableEq κ] : List (κ × β) → κ → List (κ × β)
  | [], _ => []
  | (k, v) :: rest, key => if k = key then rest else (k, v) :: aremove rest key

theorem alookup_aupdate_self {κ β : Type} [DecidableEq κ] (f : β → β)
    (m : List (κ × β)) (k : κ) :
    alookup (aupdate f m k) k = (alookup m k).map f := by
  induction m with
  | nil => rfl
  | cons hd tl ih =>
    obtain ⟨k', v⟩ := hd
    by_cases h : k' = k
    · subst h; simp [alookup, aupdate]
    · simp [alookup, aupdate, h, ih]

theorem alookup_aupdate_ne {κ β : Type} [DecidableEq κ] (f : β → β)
    (m : List (κ × β)) (k k' : κ) (h : k ≠ k') :
    alookup (aupdate f m k) k' = alookup m k' := by
  induction m with
  | nil => rfl
  | cons hd tl ih =>
    obtain ⟨k₀, v⟩ := hd
    by_cases h₀ : k₀ = k
    · subst h₀; simp [alookup, aupdate, h]
    · simp only [aupdate, if_neg h₀, alookup]
      by_cases h₁ : k₀ = k'
      · simp [h₁]
      · simp [h₁, ih]

theorem aupdate_const_lookup {κ β : Type} [DecidableEq κ]
    (m : List (κ × β)) (k : κ) (v : β) (h : alookup m k = some v) :
    aupdate (fun _ => v) m k = m := by
  induction m with
  | nil => simp [aupdate]
  | cons hd tl ih =>
    obtain ⟨k₀, v₀⟩ := hd
    by_cases h₀ : k₀ = k
    · subst h₀
      simp only [alookup, if_true, eq_self_iff_true, Option.some.injEq] at h
      simp [aupdate, h.symm]
    · simp only [alookup, if_neg h₀] at h
      simp [aupdate, h₀, ih h]

/-- `DynamicObject` (src/dynamic_objects.rs).  Fields not touched by any
verified claim (`rotation`, `scale`, `collider_handle`, `last_update`,
`created_at`) are omitted. -/
structure DynamicObject where
  id : String
  objectType : String
  worldOrigin : Q3
  position : Q3
  velocity : Q3
  bodyHandle : Option Nat
  owner : Option (PlayerId × Time)
  grabbedBy : Option (PlayerId × Time)
  grabOffset : Option Q3
  isKinematicGhost : Bool
  originalBodyType : Option String
deriving DecidableEq, Repr

/-- `DynamicObject::get_world_position`: `world_origin + position` (the
`f32 → f64` casts of the source are exact). -/
def DynamicObject.getWorldPosition (o : DynamicObject) : Q3 :=
  o.worldOrigin + o.position

/-- `DynamicObject::get_position_relative_to`: world position minus the
receiving player's origin, materialised as `f32` in the source. -/
def DynamicObject.getPositionRelativeTo (o : DynamicObject) (playerOrigin : Q3) : Q3 :=
  o.getWorldPosition - playerOrigin

/-- `DynamicObject::grab`: fails iff already grabbed, otherwise records the
grabber, the grab time and the offset and sets the kinematic-ghost flag.
Returns `(ok, updated object)`. -/
def DynamicObject.grab (o : DynamicObject) (playerId : PlayerId) (grabOffset : Q3)
    (now : Time) : Bool × DynamicObject :=
  if o.grabbedBy.isSome then (false, o)
  else (true, { o with grabbedBy := some (playerId, now)
                       grabOffset := some grabOffset
                       isKinematicGhost := true })

/-- `DynamicObject::release`: clears the four grab fields and nothing else. -/
def DynamicObject.release (o : DynamicObject) : DynamicObject :=
  { o with grabbedBy := none
           grabOffset := none
           isKinematicGhost := false
           originalBodyType := none }

/-- `DynamicObject::is_grabbed_by`. -/
def DynamicObject.isGrabbedBy (o : DynamicObject) (playerId : PlayerId) : Bool :=
  match o.grabbedBy with
  | some (id, _) => id = playerId
  | none => false

/-- The `DashMap<String, DynamicObject>` of `DynamicObjectManager`. -/
abbrev ObjMap := List (String × DynamicObject)

/-- `DynamicObjectManager::check_ownership`: true iff the object exists, has a
lease, the holder matches, and `now < expiry`. -/
def checkOwnership (m : ObjMap) (objectId : String) (playerId : PlayerId)
    (now : Time) : Bool :=
  match alookup m objectId with
  | some obj =>
    match obj.owner with
    | some (ownerId, expiry) => ownerId = playerId && decide (now < expiry)
    | none => false
  | none => false

/-- `DynamicObjectManager::grant_ownership`: overwrites the lease with
`(player, now + duration)`; no-op if the object does not exist. -/
def grantOwnership (m : ObjMap) (objectId : String) (playerId : PlayerId)
    (duration : Time) (now : Time) : ObjMap :=
  aupdate (fun obj => { obj with owner := some (playerId, now + duration) }) m objectId

/-- `DynamicObjectManager::revoke_ownership`: clears the lease and the grab
fields `grabbed_by` and `grab_offset` (but not `is_kinematic_ghost`). -/
def revokeOwnership (m : ObjMap) (objectId : String) : ObjMap :=
  aupdate (fun obj => { obj with owner := none, grabbedBy := none, grabOffset := none })
    m objectId

/-- `DynamicObjectManager::update_ownership` — the lease expiry sweep.  It is
declared `#[allow(dead_code)]` in the source and is never invoked by the tick
loop or any handler; it is embedded to document what the sweep would do. -/
def updateOwnership (m : ObjMap) (now : Time) : ObjMap :=
  let expired := m.filterMap fun (id, obj) =>
    match obj.owner with
    | some (_, expiry) => if expiry ≤ now then some id else none
    | none => none
  expired.foldl (fun acc id => revokeOwnership acc id) m

/-- `DynamicObjectManager::grab_object`: delegates to `DynamicObject::grab` on
the looked-up object; `false` if the object does not exist. -/
def grabObjectM (m : ObjMap) (objectId : String) (playerId : PlayerId)
    (grabOffset : Q3) (now : Time) : Bool × ObjMap :=
  match alookup m objectId with
  | none => (false, m)
  | some obj =>
    let r := obj.grab playerId grabOffset now
    (r.1, aupdate (fun _ => r.2) m objectId)

/-- `DynamicObjectManager::release_object`: releases only when the object
exists and is grabbed by exactly this player. -/
def releaseObjectM (m : ObjMap) (objectId : String) (playerId : PlayerId) :
    Bool × ObjMap :=
  match alookup m objectId with
  | none => (false, m)
  | some obj =>
    if obj.isGrabbedBy playerId then
      (true, aupdate (fun _ => obj.release) m objectId)
    else (false, m)

/-- `DynamicObjectManager::force_release_all_by_player` (called on disconnect):
collects the ids of objects whose *lease holder* is the player — the grab
state is not consulted, and lease expiry is ignored — then runs
`release_object` on each collected id. -/
def forceReleaseAllByPlayer (m : ObjMap) (playerId : PlayerId) : ObjMap :=
  let objectsToRelease := m.filterMap fun (_, obj) =>
    match obj.owner with
    | some (ownerId, _) => if ownerId = playerId then some obj.id else none
    | none => none
  objectsToRelease.foldl (fun acc id => (releaseObjectM acc id playerId).2) m

/-- `DynamicObjectManager::update_from_physics_world_position`: stores the
physics translation as the new `world_origin`, zeroes the local position and
refreshes rotation (not modelled) and velocity.  The `owner` and grab fields
are untouched. -/
def updateFromPhysicsWorldPosition (m : ObjMap) (id : String)
    (worldPosition : Q3) (velocity : Q3) : ObjMap :=
  aupdate (fun obj => { obj with worldOrigin := worldPosition
                                 position := (0 : Q3)
                                 velocity := velocity }) m id

/-- `DynamicObjectManager::get_grabbed_objects_by_player`. -/
def getGrabbedObjectsByPlayer (m : ObjMap) (playerId : PlayerId) : List String :=
  m.filterMap fun (id, obj) => if obj.isGrabbedBy playerId then some id else none

/-- `rapier3d::dynamics::RigidBodyType` (the variants the server uses). -/
inductive BodyType
  | Dynamic
  | KinematicPositionBased
  | Fixed
deriving DecidableEq, Repr

/-- The slice of a rapier rigid body the handlers read and write.  `force` and
`impulse` are accumulators for `add_force_at_point` / `apply_impulse`; the
torque component of a force applied at a point is not modelled (no claim
touches it). -/
structure RigidBody where
  bodyType : BodyType
  translation : Q3
  linvel : Q3
  mass : ℚ
  force : Q3
  impulse : Q3
  awake : Bool
deriving DecidableEq, Repr

/-- The `RigidBodySet`, as an association list keyed by handle. -/
abbrev BodyMap := List (Nat × RigidBody)

/-- `PhysicsManager::get_body_state` (rotation omitted): translation and
linear velocity of the body behind a handle. -/
def getBodyState (bodies : BodyMap) (handle : Nat) : Option (Q3 × Q3) :=
  (alookup bodies handle).map fun b => (b.translation, b.linvel)

/-- `PhysicsWorld::is_position_in_water` (src/physics.rs): point-in-box scan
over the registered water volumes, each stored as `(position, scale)` with
half-extents `scale / 2`.  Generic in the scalar so the same definition serves
the rational handler state and the real force computation. -/
def isPositionInWater {α : Type} [LinearOrderedField α]
    (volumes : List (Vec3 α × Vec3 α)) (pos : Vec3 α) : Bool :=
  volumes.any fun (volumePos, scale) =>
    let hx := scale.x / 2
    let hy := scale.y / 2
    let hz := scale.z / 2
    decide (volumePos.x - hx ≤ pos.x) && decide (pos.x ≤ volumePos.x + hx) &&
    decide (volumePos.y - hy ≤ pos.y) && decide (pos.y ≤ volumePos.y + hy) &&
    decide (volumePos.z - hz ≤ pos.z) && decide (pos.z ≤ volumePos.z + hz)

/-- `Player` (src/player.rs).  The outbound channel, weapon and vehicle-frame
fields not touched by a verified claim are omitted. -/
structure Player where
  id : PlayerId
  position : Q3
  rotation : Rot
  velocity : Q3
  worldOrigin : Q3
  isGrounded : Bool
  isSwimming : Bool
  bodyHandle : Option Nat
  health : ℚ
  maxHealth : ℚ
  armor : ℚ
  isDead : Bool
  currentVehicleId : Option String
deriving DecidableEq, Repr

/-- `Player::get_world_position`: `world_origin + position` in `f64`. -/
def Player.getWorldPosition (p : Player) : Q3 :=
  p.worldOrigin + p.position

/-- The `DashMap<Uuid, Player>` of `PlayerManager`. -/
abbrev PlayerMap := List (PlayerId × Player)

/-- The outbound frames a handler emits, as `(recipient, message)` pairs.
Payload fields carried verbatim and irrelevant to every claim (explicit
rotations on broadcasts, the random angular velocity in `ObjectThrown`,
`ObjectReleased`'s dummy position) are omitted where noted. -/
inductive ServerMessage
  | PlayerState (playerId : PlayerId) (position : Q3) (rotation : Rot)
      (velocity : Q3) (isGrounded : Bool) (isSwimming : Bool)
  | OriginUpdate (origin : Q3)
  | ObjectOwnershipGranted (objectId : String) (playerId : PlayerId) (durationMs : Nat)
  | ObjectOwnershipRevoked (objectId : String)
  | ObjectGrabbed (objectId : String) (playerId : PlayerId) (grabOffset : Q3)
  | GrabFailed (objectId : String) (reason : String)
  | ObjectThrown (objectId : String) (playerId : PlayerId) (position : Q3) (velocity : Q3)
  | ObjectReleased (objectId : String) (playerId : PlayerId)
  | ObjectMoved (objectId : String) (position : Q3)
  | WeaponFire (playerId : PlayerId) (weaponType : String) (origin : Q3) (direction : Q3)
  | PlayerDamaged (playerId : PlayerId) (damage : ℚ) (health : ℚ) (armor : ℚ)
  | PlayerKilled (playerId : PlayerId) (killerId : PlayerId)
  | PlayerLeft (playerId : PlayerId)
  | DynamicObjectUpdate (objectId : String) (position : Q3) (velocity : Q3)
deriving DecidableEq, Repr

/-- Sends recorded by a handler. -/
abbrev Sends := List (PlayerId × ServerMessage)

/-- `PlayerManager::broadcast_to_all`: one copy of the frame per connected
player, untranslated. -/
def sendAll (players : PlayerMap) (msg : ServerMessage) : Sends :=
  players.map fun (qid, _) => (qid, msg)

/-- The per-receiver rewrite `PlayerManager::broadcast_except` applies:
`PlayerState` frames get the sender's stored world position re-expressed in
the receiver's anchor (both branches of the source's in-vehicle check return
`sender.get_world_position()`); with the sender absent from the map the
frame's own position is used as the world position; every other message kind
is passed through unchanged. -/
def translateFor (players : PlayerMap) (excludeId : PlayerId) (receiver : Player) :
    ServerMessage → ServerMessage
  | .PlayerState pid pos rot vel grounded swimming =>
    let senderWorldPos :=
      match alookup players excludeId with
      | some s => s.getWorldPosition
      | none => pos
    .PlayerState pid (senderWorldPos - receiver.worldOrigin) rot vel grounded swimming
  | m => m

/-- `PlayerManager::broadcast_except`: every player other than the excluded
one receives the (possibly re-anchored) frame. -/
def broadcastExcept (players : PlayerMap) (excludeId : PlayerId)
    (msg : ServerMessage) : Sends :=
  players.filterMap fun (qid, q) =>
    if qid = excludeId then none
    else some (qid, translateFor players excludeId q msg)

/-- The shared server state the handlers operate on (the fields of the
`AppState` behind the `RwLock` that the verified claims touch). -/
structure ServerState where
  players : PlayerMap
  objects : ObjMap
  bodies : BodyMap
  waterVolumes : List (Q3 × Q3)
deriving DecidableEq, Repr

/-- `Player::take_damage` (src/player.rs): armor absorbs half the damage up to
its value, health floors at 0, and reaching 0 marks the player dead (the
5-second respawn timer it also sets is not modelled; no claim reads it). -/
def Player.takeDamage (pl : Player) (damage : ℚ) : Player :=
  if pl.isDead then pl
  else
    let actualDamage :=
      if 0 < pl.armor then
        let armorAbsorbed := min (damage * (1/2)) pl.armor
        damage - armorAbsorbed
      else damage
    let armor1 := if 0 < pl.armor then pl.armor - min (damage * (1/2)) pl.armor else pl.armor
    let health1 := max (pl.health - actualDamage) 0
    { pl with armor := armor1
              health := health1
              isDead := health1 ≤ 0 }

/-- Modelled from the spec: `PlayerManager::damage_player`, the wrapper the
`FireWeapon` handler calls, is absent from the sources under src/ (only
`Player::take_damage` is present); per §4.6 it applies the damage to the hit
player and reports whether this call killed them.  It is composed here from
the in-source `Player::take_damage`.  No verified claim exercises it: the
self-hit path of claim C9 skips it entirely. -/
def damagePlayer (players : PlayerMap) (hitId : PlayerId) (damage : ℚ) :
    PlayerMap × Bool :=
  match alookup players hitId with
  | none => (players, false)
  | some pl =>
    let pl1 := pl.takeDamage damage
    (aupdate (fun _ => pl1) players hitId, !pl.isDead && pl1.isDead)

/-- Weapon damage table of the `FireWeapon` handler (src/main.rs). -/
def weaponDamage (weaponType : String) : ℚ :=
  if weaponType = "pistol" then 25
  else if weaponType = "rifle" then 35
  else if weaponType = "shotgun" then 80
  else if weaponType = "sniper" then 120
  else if weaponType = "grenadeLauncher" then 150
  else if weaponType = "rocketLauncher" then 200
  else 10

/-- `Player::update_state` (src/player.rs, lines 74–121).  This function is
annotated `#[allow(dead_code)]` and is NOT called by the live `PlayerUpdate`
handler in main.rs, which inlines the field updates but omits the recentering
below.  It is embedded to document the recentering behaviour.  The in-vehicle
branch stores vehicle-relative fields not modelled here and leaves the world
position alone.  The source guard is `position.magnitude() > 1000.0`; it is
rendered as the equivalent squared comparison `1000² < ‖position‖²`. -/
def Player.updateState (pl : Player) (pos : Q3) (rot : Rot) (vel : Q3)
    (grounded : Bool) : Player × Option ServerMessage :=
  if pl.currentVehicleId.isSome then (pl, none)
  else
    let pl1 := { pl with position := pos, rotation := rot, velocity := vel,
                         isGrounded := grounded }
    if 1000 * 1000 < pl1.position.normSq then
      let newOrigin := pl1.worldOrigin + pl1.position
      ({ pl1 with worldOrigin := newOrigin, position := (0 : Q3) },
       some (.OriginUpdate newOrigin))
    else (pl1, none)

/-- `handle_client_message` / `PlayerUpdate` (src/main.rs, lines 1073–1155):
stores the client fields on the player, writes the world-frame translation
and velocity into the physics body, server-verifies swimming by the water
test at `position + world_origin`, and relays a `PlayerState` frame to all
other participants via `broadcast_except`.  Note: no recentering and no
`OriginUpdate` here. -/
def handlePlayerUpdate (st : ServerState) (p : PlayerId) (pos : Q3) (rot : Rot)
    (vel : Q3) (isGrounded : Bool) : ServerState × Sends :=
  match alookup st.players p with
  | none => (st, [])
  | some pl =>
    let players1 := aupdate
      (fun q => { q with position := pos, rotation := rot, velocity := vel,
                         isGrounded := isGrounded }) st.players p
    let worldPos := pos + pl.worldOrigin
    let actualSwimming := isPositionInWater st.waterVolumes worldPos
    let players2 := aupdate (fun q => { q with isSwimming := actualSwimming }) players1 p
    let bodies1 :=
      match pl.bodyHandle with
      | some h => aupdate (fun b => { b with translation := worldPos, linvel := vel })
          st.bodies h
      | none => st.bodies
    ({ st with players := players2, bodies := bodies1 },
     broadcastExcept players2 p (.PlayerState p pos rot vel isGrounded actualSwimming))

/-- The per-body effect of the `PushObject` handler: wake the body, add the
mass-scaled force (`force * 50 * mass`) to the force accumulator, and when
`force.y > 0.1` also an upward lift impulse `(0, force.y · 10 · mass, 0)`.
The contact point only contributes torque, which is not modelled. -/
def pushTransform (force : Q3) (b : RigidBody) : RigidBody :=
  let b1 := { b with awake := true }
  let scaled := (50 * b1.mass) • force
  let b2 := { b1 with force := b1.force + scaled }
  if (1 : ℚ)/10 < force.y then
    { b2 with impulse := b2.impulse + ⟨0, force.y * 10 * b2.mass, 0⟩ }
  else b2

/-- The `PushObject` handler's body update, applied behind the handle. -/
def applyPushToBody (bodies : BodyMap) (handle : Nat) (force : Q3) : BodyMap :=
  aupdate (pushTransform force) bodies handle

/-- `handle_client_message` / `PushObject` (src/main.rs, lines 1157–1226):
if the object exists, grant the pusher a fresh 5-second lease whenever
`check_ownership` does not already report them (any other participant's lease
is overwritten), send them `ObjectOwnershipGranted{duration_ms: 5000}`, and in
every case apply the mass-scaled push to the object's body if it has one. -/
def handlePushObject (st : ServerState) (p : PlayerId) (objectId : String)
    (force : Q3) (now : Time) : ServerState × Sends :=
  if (alookup st.objects objectId).isNone then (st, [])
  else
    let isOwner := checkOwnership st.objects objectId p now
    let objects1 :=
      if !isOwner then grantOwnership st.objects objectId p 5 now else st.objects
    let sends1 : Sends :=
      if !isOwner then
        match alookup st.players p with
        | some _ => [(p, .ObjectOwnershipGranted objectId p 5000)]
        | none => []
      else []
    let bodyHandle := (alookup objects1 objectId).bind DynamicObject.bodyHandle
    let bodies1 :=
      match bodyHandle with
      | some h => applyPushToBody st.bodies h force
      | none => st.bodies
    ({ st with objects := objects1, bodies := bodies1 }, sends1)

/-- `handle_client_message` / `GrabObject` (src/main.rs, lines 1429–1484):
a missing object draws a targeted `GrabFailed{"Object not found"}`; a grabbed
object draws `GrabFailed{"Object already grabbed or not grabbable"}`; on
success the body is switched to kinematic-position-based, a 30-second lease is
granted and `ObjectGrabbed` is broadcast to everyone. -/
def handleGrabObject (st : ServerState) (p : PlayerId) (objectId : String)
    (grabPoint : Q3) (now : Time) : ServerState × Sends :=
  if (alookup st.objects objectId).isNone then
    (st,
     match alookup st.players p with
     | some _ => [(p, .GrabFailed objectId "Object not found")]
     | none => [])
  else
    let r := grabObjectM st.objects objectId p grabPoint now
    if r.1 then
      let bodyHandle := (alookup r.2 objectId).bind DynamicObject.bodyHandle
      let bodies1 :=
        match bodyHandle with
        | some h => aupdate (fun b => { b with bodyType := .KinematicPositionBased })
            st.bodies h
        | none => st.bodies
      let objects2 := grantOwnership r.2 objectId p 30 now
      ({ st with objects := objects2, bodies := bodies1 },
       sendAll st.players (.ObjectGrabbed objectId p grabPoint))
    else
      ({ st with objects := r.2 },
       match alookup st.players p with
       | some _ => [(p, .GrabFailed objectId "Object already grabbed or not grabbable")]
       | none => [])

/-- `handle_client_message` / `ThrowObject` (src/main.rs, lines 1517–1561):
on a successful `release_object` the body reverts to dynamic with linear
velocity equal to the throw force (the random angular velocity is not
modelled) and `ObjectThrown` is broadcast to everyone. -/
def handleThrowObject (st : ServerState) (p : PlayerId) (objectId : String)
    (throwForce : Q3) (releasePoint : Q3) : ServerState × Sends :=
  let r := releaseObjectM st.objects objectId p
  if r.1 then
    let bodyHandle := (alookup r.2 objectId).bind DynamicObject.bodyHandle
    let bodies1 :=
      match bodyHandle with
      | some h => aupdate
          (fun b => { b with bodyType := .Dynamic, linvel := throwForce }) st.bodies h
      | none => st.bodies
    ({ st with objects := r.2, bodies := bodies1 },
     sendAll st.players (.ObjectThrown objectId p releasePoint throwForce))
  else (st, [])

/-- `handle_client_message` / `ReleaseObject` (src/main.rs, lines 1563–1589):
on a successful `release_object` the body reverts to dynamic and
`ObjectReleased` is broadcast to everyone (its dummy zero position is
omitted). -/
def handleReleaseObject (st : ServerState) (p : PlayerId) (objectId : String) :
    ServerState × Sends :=
  let r := releaseObjectM st.objects objectId p
  if r.1 then
    let bodyHandle := (alookup r.2 objectId).bind DynamicObject.bodyHandle
    let bodies1 :=
      match bodyHandle with
      | some h => aupdate (fun b => { b with bodyType := .Dynamic }) st.bodies h
      | none => st.bodies
    ({ st with objects := r.2, bodies := bodies1 },
     sendAll st.players (.ObjectReleased objectId p))
  else (st, [])

/-- `handle_client_message` / `FireWeapon` (src/main.rs, lines 1305–1369):
a dead sender is ignored outright; a reported hit on another player applies
damage and broadcasts `PlayerDamaged` (and `PlayerKilled` on a kill); a hit
on the sender themselves is skipped; finally `WeaponFire` is relayed to every
other participant.  The `Uuid` parse of the hit id always succeeds in this
model. -/
def handleFireWeapon (st : ServerState) (p : PlayerId) (weaponType : String)
    (origin : Q3) (direction : Q3) (hitPlayerId : Option PlayerId) :
    ServerState × Sends :=
  let senderDead :=
    match alookup st.players p with
    | some pl => pl.isDead
    | none => false
  if senderDead then (st, [])
  else
    let damage := weaponDamage weaponType
    let (players1, sends1) :=
      match hitPlayerId with
      | some hitId =>
        if hitId ≠ p then
          let r := damagePlayer st.players hitId damage
          match alookup r.1 hitId with
          | some hitPl =>
            (r.1,
             sendAll r.1 (.PlayerDamaged hitId damage hitPl.health hitPl.armor) ++
             (if r.2 then sendAll r.1 (.PlayerKilled hitId p) else []))
          | none => (r.1, [])
        else (st.players, [])
      | none => (st.players, [])
    ({ st with players := players1 },
     sends1 ++ broadcastExcept players1 p (.WeaponFire p weaponType origin direction))

/-- The disconnect cleanup of `handle_socket` (src/main.rs, lines 1021–1059):
`force_release_all_by_player`, removal of the player's own physics body, then
removal of the player and a `PlayerLeft` broadcast to the remaining players.
Nothing here touches any dynamic object's body type or lease. -/
def disconnectCleanup (st : ServerState) (p : PlayerId) : ServerState × Sends :=
  let objects1 := forceReleaseAllByPlayer st.objects p
  let bodyHandle := (alookup st.players p).bind Player.bodyHandle
  let bodies1 :=
    match bodyHandle with
    | some h => aremove st.bodies h
    | none => st.bodies
  let players1 := aremove st.players p
  ({ st with objects := objects1, bodies := bodies1, players := players1 },
   sendAll players1 (.PlayerLeft p))

/-- The dynamic-object segment of the 16 ms tick loop (src/main.rs,
lines 438–512): read each tracked body's state back, store it via
`update_from_physics_world_position`, and — on the 30 Hz sub-cadence — send
every player a `DynamicObjectUpdate` with the object's world position
re-expressed in the receiver's anchor.  No statement in the loop reads or
writes any object's `owner` lease, and no `ObjectOwnershipRevoked` frame is
produced anywhere in the sources. -/
def tickObjectsPhase (st : ServerState) (broadcastDue : Bool) : ServerState × Sends :=
  let updates := st.objects.filterMap fun (_, obj) =>
    match obj.bodyHandle with
    | some h => (getBodyState st.bodies h).map fun s => (obj.id, s.1, s.2)
    | none => none
  let objects1 := updates.foldl
    (fun acc u => updateFromPhysicsWorldPosition acc u.1 u.2.1 u.2.2) st.objects
  let sends :=
    if broadcastDue then
      (objects1.filterMap fun (_, obj) =>
        match obj.bodyHandle with
        | some h => (getBodyState st.bodies h).map fun s =>
            (obj.id, obj.getWorldPosition, s.2)
        | none => none).flatMap fun u =>
        st.players.map fun (qid, q) =>
          (qid, ServerMessage.DynamicObjectUpdate u.1 (u.2.1 - q.worldOrigin) u.2.2)
    else []
  ({ st with objects := objects1 }, sends)

/-- `Vehicle` (src/vehicles.rs); `rotation`, handles and timestamps not read
by a verified claim are omitted. -/
structure Vehicle where
  id : String
  vehicleType : String
  position : Q3
  worldPosition : Q3
  velocity : Q3
  angularVelocity : Q3
  health : ℚ
  maxHealth : ℚ
  armor : ℚ
  pilotId : Option PlayerId
  passengers : List PlayerId
  isDestroyed : Bool
  respawnTime : Option Time
deriving DecidableEq, Repr

/-- The kind → max-health table of `Vehicle::new` (src/vehicles.rs,
lines 31–38). -/
def vehicleMaxHealth (vehicleType : String) : ℚ :=
  if vehicleType = "spaceship" then 500
  else if vehicleType = "helicopter" then 300
  else if vehicleType = "plane" then 400
  else if vehicleType = "car" then 200
  else 100

/-- `Vehicle::new` (src/vehicles.rs): kind-specific max health, full health.
Like `update_ownership`, this constructor is `#[allow(dead_code)]` — the boot
path goes through `spawn_vehicle_with_id` instead. -/
def Vehicle.new (id : String) (vehicleType : String) (worldPosition : Q3) : Vehicle :=
  { id := id
    vehicleType := vehicleType
    position := (0 : Q3)
    worldPosition := worldPosition
    velocity := (0 : Q3)
    angularVelocity := (0 : Q3)
    health := vehicleMaxHealth vehicleType
    maxHealth := vehicleMaxHealth vehicleType
    armor := 0
    pilotId := none
    passengers := []
    isDestroyed := false
    respawnTime := none }

/-- `VehicleManager::spawn_vehicle_with_id` (src/vehicles.rs, lines 133–169) —
the constructor used both at boot and by `spawn_vehicle`.  It writes literal
`health: 100.0, max_health: 100.0` for every vehicle kind. -/
def spawnVehicleWithId (vehicles : List (String × Vehicle)) (vehicleId : String)
    (vehicleType : String) (worldPosition : Q3) (pilotId : Option PlayerId) :
    List (String × Vehicle) :=
  let v : Vehicle :=
    { id := vehicleId
      vehicleType := vehicleType
      position := worldPosition
      worldPosition := worldPosition
      velocity := (0 : Q3)
      angularVelocity := (0 : Q3)
      health := 100
      maxHealth := 100
      armor := 0
      pilotId := pilotId
      passengers := []
      isDestroyed := false
      respawnTime := none }
  (vehicleId, v) :: aremove vehicles vehicleId

/-- `Vehicle::respawn` (src/vehicles.rs, lines 91–98): health back to the
stored `max_health`, destruction state and timers cleared, velocities zeroed. -/
def Vehicle.respawn (v : Vehicle) : Vehicle :=
  { v with health := v.maxHealth
           isDestroyed := false
           respawnTime := none
           velocity := (0 : Q3)
           angularVelocity := (0 : Q3) }

noncomputable section PhysicsStep

/-- Euclidean norm of a real vector (`magnitude()` in the source). -/
def norm3 (v : R3) : ℝ := Real.sqrt v.normSq

/-- `PhysicsWorld::step` reuses the stored `gravity` vector `(0, -250, 0)` as
the planet's gravity center (src/physics.rs, line 62). -/
def gravityCenter : R3 := ⟨0, -250, 0⟩

/-- `gravity_strength = 25.0` (src/physics.rs, line 63). -/
def gravityStrength : ℝ := 25

/-- The gravity vector handed to `physics_pipeline.step` — identically zero,
custom gravity having been applied manually (src/physics.rs, line 129). -/
def engineGravity : R3 := 0

/-- The total force `PhysicsWorld::step` (src/physics.rs, lines 52–126) puts
on one dynamic body before stepping, as a function of its translation,
velocity and mass.  Forces are reset first, so this is the whole force.
In water: a buoyancy force opposite the gravity direction, guarded by
`distance > 0.1`, plus an unconditional drag `−3 · velocity`.  Outside water:
radial gravity plus damping `−0.02 · velocity`, both guarded by
`distance > 0.1` — a body at distance ≤ 0.1 from the center gets no force. -/
def preStepForce (volumes : List (R3 × R3)) (pos vel : R3) (mass : ℝ) : R3 :=
  let toCenter := gravityCenter - pos
  let distance := norm3 toCenter
  if isPositionInWater volumes pos then
    let buoyancy :=
      if (0.1 : ℝ) < distance then
        let gravityDir := (1 / distance) • toCenter
        (-(gravityStrength * 0.3 * mass)) • gravityDir
      else 0
    let drag := (-3 : ℝ) • vel
    buoyancy + drag
  else
    if (0.1 : ℝ) < distance then
      let gravityDir := (1 / distance) • toCenter
      (gravityStrength * mass) • gravityDir + (-0.02 : ℝ) • vel
    else 0

/-- The spec's radial gravity: `F = mass · g · (center − pos) / ‖center − pos‖`. -/
def specGravityForce (pos : R3) (mass : ℝ) : R3 :=
  ((gravityStrength * mass) / norm3 (gravityCenter - pos)) • (gravityCenter - pos)

/-- The spec's buoyancy: `0.3 · g · mass` directed radially away from the
gravity center. -/
def specBuoyancyForce (pos : R3) (mass : ℝ) : R3 :=
  ((0.3 * gravityStrength * mass) / norm3 (pos - gravityCenter)) • (pos - gravityCenter)

/-- The spec's linear water drag `−3 · velocity`. -/
def specDrag (vel : R3) : R3 := (-3 : ℝ) • vel

/-- The spec's out-of-water damping `−0.02 · velocity`. -/
def specDamping (vel : R3) : R3 := (-0.02 : ℝ) • vel

end PhysicsStep

theorem norm3_sub_symm (a b : R3) : norm3 (a - b) = norm3 (b - a) := by
  have h : (a - b).normSq = (b - a).normSq := by
    simp [Vec3.normSq]
    ring
  rw [norm3, norm3, h]

/-! ### Supporting lemmas and concrete states -/

theorem grabObjectM_grabbed (m : ObjMap) (objectId : String) (p : PlayerId)
    (off : Q3) (now : Time) (obj : DynamicObject)
    (hobj : alookup m objectId = some obj) (hg : obj.grabbedBy.isSome) :
    grabObjectM m objectId p off now = (false, m) := by
  unfold grabObjectM
  rw [hobj]
  simp only [DynamicObject.grab, hg, if_true]
  rw [aupdate_const_lookup m objectId obj hobj]

theorem grabObjectM_free (m : ObjMap) (objectId : String) (p : PlayerId)
    (off : Q3) (now : Time) (obj : DynamicObject)
    (hobj : alookup m objectId = some obj) (hg : obj.grabbedBy = none) :
    grabObjectM m objectId p off now =
      (true, aupdate (fun _ => { obj with grabbedBy := some (p, now)
                                          grabOffset := some off
                                          isKinematicGhost := true }) m objectId) := by
  unfold grabObjectM
  rw [hobj]
  simp [DynamicObject.grab, hg]

/-- A connected participant with default fields, for concrete scenarios. -/
def basePlayer (i : PlayerId) : Player :=
  { id := i
    position := (0 : Q3)
    rotation := Rot.ident
    velocity := (0 : Q3)
    worldOrigin := (0 : Q3)
    isGrounded := false
    isSwimming := false
    bodyHandle := none
    health := 100
    maxHealth := 100
    armor := 0
    isDead := false
    currentVehicleId := none }

/-- A free rock backed by physics body 0, for concrete scenarios. -/
def baseObject : DynamicObject :=
  { id := "rock_1"
    objectType := "rock"
    worldOrigin := (0 : Q3)
    position := (0 : Q3)
    velocity := (0 : Q3)
    bodyHandle := some 0
    owner := none
    grabbedBy := none
    grabOffset := none
    isKinematicGhost := false
    originalBodyType := none }

/-- A dynamic rigid body of mass 2, for concrete scenarios. -/
def baseBody : RigidBody :=
  { bodyType := .Dynamic
    translation := (0 : Q3)
    linvel := (0 : Q3)
    mass := 2
    force := (0 : Q3)
    impulse := (0 : Q3)
    awake := false }

/-! ### C4 — grab_object -/

/-- Claim C4: a `grab_object` request succeeds if and only if the target
object exists and is free; on success the object records
`Grabbed(participant, offset, now)`, its physics body becomes
kinematic-position-based, and a 30-second lease is granted; on failure the
grabber receives a `GrabFailed` frame and the state is unchanged. -/
theorem C4_grab_object (st : ServerState) (p : PlayerId) (objectId : String)
    (grabPoint : Q3) (now : Time) (hp : (alookup st.players p).isSome) :
    (alookup st.objects objectId = none →
      (handleGrabObject st p objectId grabPoint now).1 = st ∧
      (handleGrabObject st p objectId grabPoint now).2 =
        [(p, .GrabFailed objectId "Object not found")]) ∧
    (∀ obj, alookup st.objects objectId = some obj → obj.grabbedBy.isSome →
      (handleGrabObject st p objectId grabPoint now).1 = st ∧
      (handleGrabObject st p objectId grabPoint now).2 =
        [(p, .GrabFailed objectId "Object already grabbed or not grabbable")]) ∧
    (∀ obj, alookup st.objects objectId = some obj → obj.grabbedBy = none →
      alookup (handleGrabObject st p objectId grabPoint now).1.objects objectId =
        some { obj with grabbedBy := some (p, now)
                        grabOffset := some grabPoint
                        isKinematicGhost := true
                        owner := some (p, now + 30) } ∧
      (∀ h b, obj.bodyHandle = some h → alookup st.bodies h = some b →
        alookup (handleGrabObject st p objectId grabPoint now).1.bodies h =
          some { b with bodyType := .KinematicPositionBased }) ∧
      (handleGrabObject st p objectId grabPoint now).2 =
        sendAll st.players (.ObjectGrabbed objectId p grabPoint)) := by
  obtain ⟨pl, hpl⟩ := Option.isSome_iff_exists.mp hp
  refine ⟨?caseMissing, ?caseGrabbed, ?caseFree⟩
  case caseMissing =>
    intro hnone
    constructor
    · simp [handleGrabObject, hnone, hpl]
    · simp [handleGrabObject, hnone, hpl]
  case caseGrabbed =>
    intro obj hobj hg
    have hG := grabObjectM_grabbed st.objects objectId p grabPoint now obj hobj hg
    constructor
    · simp [handleGrabObject, hobj, hG, hpl]
    · simp [handleGrabObject, hobj, hG, hpl]
  case caseFree =>
    intro obj hobj hg
    have hG := grabObjectM_free st.objects objectId p grabPoint now obj hobj hg
    refine ⟨?_, ?_, ?_⟩
    · simp [handleGrabObject, hobj, hG, grantOwnership, alookup_aupdate_self]
    · intro h b hbh hb
      simp [handleGrabObject, hobj, hG, alookup_aupdate_self, hbh, hb]
    · simp [handleGrabObject, hobj, hG]

/-- Concrete state for the C4 witness: one player, one free rock, one body. -/
def stC4 : ServerState :=
  { players := [(1, basePlayer 1)]
    objects := [("rock_1", baseObject)]
    bodies := [(0, baseBody)]
    waterVolumes := [] }

/-- Witness for C4: at the concrete state `stC4` the grab by player 1 at
time 7 succeeds, flips the body kinematic, and grants the lease until 37. -/
theorem C4_grab_object_witness :
    alookup (handleGrabObject stC4 1 "rock_1" 0 7).1.objects "rock_1" =
      some { baseObject with grabbedBy := some (1, 7)
                             grabOffset := some 0
                             isKinematicGhost := true
                             owner := some (1, 37) } ∧
    alookup (handleGrabObject stC4 1 "rock_1" 0 7).1.bodies 0 =
      some { baseBody with bodyType := .KinematicPositionBased } ∧
    (handleGrabObject stC4 1 "rock_1" 0 7).2 =
      sendAll stC4.players (.ObjectGrabbed "rock_1" 1 0) := by
  have h := (C4_grab_object stC4 1 "rock_1" 0 7 (by decide)).2.2 baseObject (by decide) rfl
  refine ⟨?_, ?_, h.2.2⟩
  · have h1 := h.1
    norm_num at h1 ⊢
    exact h1
  · exact h.2.1 0 baseBody rfl (by decide)

/-! ### C5 — vehicle max_health by kind -/

/-- Claim C5 (code bug): the boot/respawn constructor
`spawn_vehicle_with_id` hard-codes `health = max_health = 100` for every
vehicle kind, so a boot-spawned spaceship has max health 100 — not the
kind-specific 500 that the dead-code constructor `Vehicle::new` (and the
spec) prescribe — and `respawn` accordingly restores 100, not 500. -/
theorem C5_spawn_ignores_kind_health :
    ((alookup (spawnVehicleWithId [] "vehicle_1" "spaceship" ⟨0, 80, 0⟩ none)
        "vehicle_1").map fun v => (v.maxHealth, v.health, v.respawn.health)) =
      some (100, 100, 100) ∧
    (Vehicle.new "vehicle_1" "spaceship" ⟨0, 80, 0⟩).maxHealth = 500 ∧
    (100 : ℚ) ≠ 500 := by
  refine ⟨rfl, ?_, by norm_num⟩
  simp [Vehicle.new, vehicleMaxHealth]

/-! ### C1 — disconnect cleanup -/

/-- Concrete pre-disconnect state for C1: player 1 grabbed `rock_a` (lease
`(1, 30)` from the grab) and `rock_b`, whose lease was later overwritten to
`(2, 8)` by player 2's push; both bodies are kinematic from the grabs. -/
def stC1 : ServerState :=
  { players := [(1, basePlayer 1), (2, basePlayer 2)]
    objects :=
      [("rock_a",
        { baseObject with id := "rock_a"
                          bodyHandle := some 0
                          grabbedBy := some (1, 0)
                          grabOffset := some 0
                          isKinematicGhost := true
                          owner := some (1, 30) }),
       ("rock_b",
        { baseObject with id := "rock_b"
                          bodyHandle := some 1
                          grabbedBy := some (1, 0)
                          grabOffset := some 0
                          isKinematicGhost := true
                          owner := some (2, 8) })]
    bodies := [(0, { baseBody with bodyType := .KinematicPositionBased }),
               (1, { baseBody with bodyType := .KinematicPositionBased })]
    waterVolumes := [] }

/-- Claim C1 (code bug): evaluating the disconnect cleanup of player 1 on
`stC1` shows all three spec'd guarantees failing on the next tick (time 1):
`rock_a` keeps its live 30-second lease for player 1 (the cleanup never
clears leases), `rock_b` stays grabbed by player 1 (the cleanup filters on
the lease holder, which player 2's push had overwritten), and both physics
bodies remain kinematic (the cleanup never restores the body type). -/
theorem C1_disconnect_cleanup_bug :
    ((alookup (disconnectCleanup stC1 1).1.objects "rock_a").map
        fun o => (o.grabbedBy, o.owner)) = some (none, some (1, 30)) ∧
    ((alookup (disconnectCleanup stC1 1).1.objects "rock_b").map
        DynamicObject.grabbedBy) = some (some (1, 0)) ∧
    ((alookup (disconnectCleanup stC1 1).1.bodies 0).map RigidBody.bodyType) =
      some .KinematicPositionBased ∧
    ((alookup (disconnectCleanup stC1 1).1.bodies 1).map RigidBody.bodyType) =
      some .KinematicPositionBased ∧
    (1 : Time) < 30 := by
  decide

/-! ### C2 — push_object lease arbitration -/

theorem pushTransform_force (force : Q3) (b : RigidBody) :
    (pushTransform force b).force = b.force + (50 * b.mass) • force := by
  simp only [pushTransform]
  split_ifs <;> rfl

theorem pushTransform_bodyType (force : Q3) (b : RigidBody) :
    (pushTransform force b).bodyType = b.bodyType := by
  simp only [pushTransform]
  split_ifs <;> rfl

theorem pushTransform_awake (force : Q3) (b : RigidBody) :
    (pushTransform force b).awake = true := by
  simp only [pushTransform]
  split_ifs <;> rfl

/-- What the `PushObject` handler does when the pusher holds no live lease:
grant `(p, now + 5)` over whatever lease was there, send the grant frame, and
push the body. -/
theorem pushObject_grant_spec (st : ServerState) (p : PlayerId)
    (objectId : String) (force : Q3) (now : Time) (obj : DynamicObject)
    (hobj : alookup st.objects objectId = some obj)
    (hNotOwner : checkOwnership st.objects objectId p now = false)
    (hp : (alookup st.players p).isSome) :
    alookup (handlePushObject st p objectId force now).1.objects objectId =
      some { obj with owner := some (p, now + 5) } ∧
    (handlePushObject st p objectId force now).2 =
      [(p, .ObjectOwnershipGranted objectId p 5000)] ∧
    (∀ h b, obj.bodyHandle = some h → alookup st.bodies h = some b →
      alookup (handlePushObject st p objectId force now).1.bodies h =
        some (pushTransform force b)) := by
  obtain ⟨pl, hpl⟩ := Option.isSome_iff_exists.mp hp
  refine ⟨?_, ?_, ?_⟩
  · simp [handlePushObject, hobj, hNotOwner, grantOwnership, alookup_aupdate_self]
  · simp [handlePushObject, hobj, hNotOwner, hpl]
  · intro h b hbh hb
    simp [handlePushObject, hobj, hNotOwner, grantOwnership, alookup_aupdate_self,
      hbh, applyPushToBody, hb]

/-- Concrete state for C2: player 2 holds a live lease `(2, 100)` on `rock_1`
while player 1 pushes at time 10. -/
def stC2 : ServerState :=
  { players := [(1, basePlayer 1), (2, basePlayer 2)]
    objects := [("rock_1", { baseObject with owner := some (2, 100) })]
    bodies := [(0, baseBody)]
    waterVolumes := [] }

/-- Counterexample to claim C2: with player 2's lease on `rock_1` live and
unexpired (10 < 100), player 1's push is NOT refused — the handler overwrites
the lease with `(1, 15)`, sends player 1 `ObjectOwnershipGranted`, and applies
the mass-scaled force `50 · mass · force = (100, 0, 0)` to the body. -/
theorem C2_counterexample :
    ((alookup (handlePushObject stC2 1 "rock_1" ⟨1, 0, 0⟩ 10).1.objects
        "rock_1").map DynamicObject.owner) = some (some (1, 15)) ∧
    (handlePushObject stC2 1 "rock_1" ⟨1, 0, 0⟩ 10).2 =
      [(1, .ObjectOwnershipGranted "rock_1" 1 5000)] ∧
    (∃ b', alookup (handlePushObject stC2 1 "rock_1" ⟨1, 0, 0⟩ 10).1.bodies 0 =
        some b' ∧ b'.force.x = 100) ∧
    (10 : Time) < 100 ∧ (2 : PlayerId) ≠ 1 := by
  have h := pushObject_grant_spec stC2 1 "rock_1" ⟨1, 0, 0⟩ 10
    { baseObject with owner := some (2, 100) } (by decide) (by decide) (by decide)
  refine ⟨?_, h.2.1, ?_, by norm_num, by decide⟩
  · rw [h.1]
    norm_num
  · refine ⟨_, h.2.2 0 baseBody rfl (by decide), ?_⟩
    rw [pushTransform_force]
    simp [baseBody]
    norm_num

/-- Claim C2 as amended: when a participant pushes an existing object without
themselves holding a live lease, the handler unconditionally grants them a
5-second lease — overwriting whatever lease any other participant held — and
sends them `ObjectOwnershipGranted{duration_ms: 5000}`, then applies the
mass-scaled force to the object's body; no push is ever refused. -/
theorem C2_push_grants_lease (st : ServerState) (p : PlayerId)
    (objectId : String) (force : Q3) (now : Time) (obj : DynamicObject)
    (hobj : alookup st.objects objectId = some obj)
    (hNotOwner : checkOwnership st.objects objectId p now = false)
    (hp : (alookup st.players p).isSome) :
    alookup (handlePushObject st p objectId force now).1.objects objectId =
      some { obj with owner := some (p, now + 5) } ∧
    (handlePushObject st p objectId force now).2 =
      [(p, .ObjectOwnershipGranted objectId p 5000)] ∧
    (∀ h b, obj.bodyHandle = some h → alookup st.bodies h = some b →
      ∃ b', alookup (handlePushObject st p objectId force now).1.bodies h = some b' ∧
        b'.force = b.force + (50 * b.mass) • force ∧
        b'.bodyType = b.bodyType ∧ b'.awake = true) := by
  have h := pushObject_grant_spec st p objectId force now obj hobj hNotOwner hp
  refine ⟨h.1, h.2.1, ?_⟩
  intro hh b hbh hb
  exact ⟨pushTransform force b, h.2.2 hh b hbh hb,
    pushTransform_force force b, pushTransform_bodyType force b,
    pushTransform_awake force b⟩

/-- Concrete state for the C2 witness: `rock_1` has no lease at all when
player 1 pushes at time 10. -/
def stC2w : ServerState :=
  { players := [(1, basePlayer 1)]
    objects := [("rock_1", baseObject)]
    bodies := [(0, baseBody)]
    waterVolumes := [] }

/-- Witness for the amended C2 at `stC2w`: the push grants `(1, 15)`, sends
the grant frame, and adds `(100, 0, 0)` to the body's force accumulator. -/
theorem C2_push_grants_lease_witness :
    alookup (handlePushObject stC2w 1 "rock_1" ⟨1, 0, 0⟩ 10).1.objects "rock_1" =
      some { baseObject with owner := some (1, 10 + 5) } ∧
    (handlePushObject stC2w 1 "rock_1" ⟨1, 0, 0⟩ 10).2 =
      [(1, .ObjectOwnershipGranted "rock_1" 1 5000)] ∧
    ∃ b', alookup (handlePushObject stC2w 1 "rock_1" ⟨1, 0, 0⟩ 10).1.bodies 0 =
        some b' ∧
      b'.force = baseBody.force + (50 * baseBody.mass) • (⟨1, 0, 0⟩ : Q3) ∧
      b'.bodyType = baseBody.bodyType ∧ b'.awake = true := by
  have h := C2_push_grants_lease stC2w 1 "rock_1" ⟨1, 0, 0⟩ 10 baseObject rfl
    (by decide) (by decide)
  exact ⟨h.1, h.2.1, h.2.2 0 baseBody rfl (by decide)⟩

/-! ### C3 — lease expiry at tick boundaries -/

theorem alookup_updateFromPhysics_owner (m : ObjMap) (id : String) (pos vel : Q3)
    (idq : String) :
    ((alookup (updateFromPhysicsWorldPosition m id pos vel) idq).map
        DynamicObject.owner) = (alookup m idq).map DynamicObject.owner := by
  by_cases h : id = idq
  · subst h
    rw [updateFromPhysicsWorldPosition, alookup_aupdate_self]
    cases alookup m id <;> rfl
  · rw [updateFromPhysicsWorldPosition, alookup_aupdate_ne _ _ _ _ h]

theorem alookup_tickFold_owner (updates : List (String × Q3 × Q3)) (m : ObjMap)
    (idq : String) :
    ((alookup (updates.foldl
        (fun acc u => updateFromPhysicsWorldPosition acc u.1 u.2.1 u.2.2) m) idq).map
      DynamicObject.owner) = (alookup m idq).map DynamicObject.owner := by
  induction updates generalizing m with
  | nil => rfl
  | cons hd tl ih => rw [List.foldl_cons, ih, alookup_updateFromPhysics_owner]

/-- Claim C3 as amended: each `DynamicObject` carries at most one lease at any
time (structurally — `owner` is a single optional pair), but the tick loop
runs no expiry sweep: the object pass of a tick preserves every `owner` field
verbatim — in particular a past-due lease survives the tick boundary — and no
frame the pass emits is ever `ObjectOwnershipRevoked` (that variant is never
constructed anywhere in the sources; the sweep `update_ownership` is dead
code, and even it emits nothing).  Lease expiry is only ever observed lazily
by `check_ownership`. -/
theorem C3_no_expiry_sweep (st : ServerState) (broadcastDue : Bool) :
    (∀ idq, ((alookup (tickObjectsPhase st broadcastDue).1.objects idq).map
        DynamicObject.owner) = (alookup st.objects idq).map DynamicObject.owner) ∧
    (∀ q m, (q, m) ∈ (tickObjectsPhase st broadcastDue).2 →
      ∀ objectId, m ≠ .ObjectOwnershipRevoked objectId) ∧
    (∀ (obj : DynamicObject) (l₁ l₂ : PlayerId × Time),
      obj.owner = some l₁ → obj.owner = some l₂ → l₁ = l₂) := by
  refine ⟨?_, ?_, ?_⟩
  · intro idq
    simp only [tickObjectsPhase]
    exact alookup_tickFold_owner _ st.objects idq
  · intro q m hm objectId
    cases broadcastDue with
    | false => simp [tickObjectsPhase] at hm
    | true =>
      simp only [tickObjectsPhase, if_true] at hm
      obtain ⟨u, hu, hmem⟩ := List.mem_flatMap.mp hm
      obtain ⟨entry, hentry, heq⟩ := List.mem_map.mp hmem
      obtain ⟨hq, hmsg⟩ := Prod.mk.injEq .. ▸ heq
      simp only [← hmsg]
      intro hcontra
      exact ServerMessage.noConfusion hcontra
  · intro obj l₁ l₂ h1 h2
    rw [h1] at h2
    exact Option.some.inj h2

/-- Concrete state for C3: `rock_1` carries lease `(7, 5)`; a tick running at
time 10 (the lease 5 s past due) does not clear it. -/
def stC3 : ServerState :=
  { players := []
    objects := [("rock_1", { baseObject with owner := some (7, 5) })]
    bodies := [(0, baseBody)]
    waterVolumes := [] }

/-- Counterexample to claim C3: after a full object pass of the tick loop at
time 10, `rock_1` still carries the lease `(7, 5)` although `5 > 10` is false
— an expired lease is present at a tick boundary, so the claimed per-tick
expiry sweep does not exist. -/
theorem C3_counterexample :
    ((alookup (tickObjectsPhase stC3 true).1.objects "rock_1").map
        DynamicObject.owner) = some (some (7, 5)) ∧
    ¬ ((10 : Time) < 5) := by
  constructor
  · simp only [tickObjectsPhase]
    rw [alookup_tickFold_owner]
    decide
  · decide

/-- Witness for the amended C3, exercised at `stC3`: the owner field survives
the tick unchanged, and the structural at-most-one-lease reading is discharged
at the concrete lease `(7, 5)`. -/
theorem C3_no_expiry_sweep_witness :
    ((alookup (tickObjectsPhase stC3 true).1.objects "rock_1").map
        DynamicObject.owner) = (alookup stC3.objects "rock_1").map DynamicObject.owner ∧
    ((7, 5) : PlayerId × Time) = ((7, 5) : PlayerId × Time) :=
  ⟨(C3_no_expiry_sweep stC3 true).1 "rock_1",
   (C3_no_expiry_sweep stC3 true).2.2 { baseObject with owner := some (7, 5) }
     (7, 5) (7, 5) rfl rfl⟩

/-! ### C6 — gravity, buoyancy and drag forces -/

/-- Claim C6 as amended: the pre-step force is exactly the spec's formulas —
buoyancy `0.3·g·mass` radially away from the center plus drag `−3·v` in
water, radial gravity `g·mass` toward the center plus damping `−0.02·v`
outside — but only for bodies farther than `0.1` from the gravity center; a
body within `0.1` of the center receives no gravity, no damping and no
buoyancy (in water the `−3·v` drag still applies).  The gravity vector passed
to the engine's step is identically zero. -/
theorem C6_prestep_forces (volumes : List (R3 × R3)) (pos vel : R3) (mass : ℝ) :
    preStepForce volumes pos vel mass =
      (if isPositionInWater volumes pos then
        (if (0.1 : ℝ) < norm3 (gravityCenter - pos) then
          specBuoyancyForce pos mass
        else 0) + specDrag vel
      else if (0.1 : ℝ) < norm3 (gravityCenter - pos) then
        specGravityForce pos mass + specDamping vel
      else 0) ∧
    engineGravity = 0 := by
  refine ⟨?_, rfl⟩
  simp only [preStepForce]
  split_ifs with h1 h2 h3
  · simp only [specBuoyancyForce, specDrag]
    rw [norm3_sub_symm pos gravityCenter]
    refine congrArg (fun w => w + (-3 : ℝ) • vel) ?_
    refine Vec3.eq_of_components ?_ ?_ ?_ <;> simp <;> ring
  · rfl
  · simp only [specGravityForce, specDamping]
    refine congrArg (fun w => w + (-0.02 : ℝ) • vel) ?_
    refine Vec3.eq_of_components ?_ ?_ ?_ <;> simp <;> ring
  · rfl

/-- Counterexample to claim C6: a dynamic body outside water at
`(0, −249.95, 0)` — distance `0.05` from the gravity center — receives no
force at all from the pre-step pass, while the claim's formula prescribes the
non-zero radial gravity `g · mass · (center − pos)/‖center − pos‖`. -/
theorem C6_counterexample :
    preStepForce [] ⟨0, -249.95, 0⟩ 0 1 = 0 ∧
    specGravityForce ⟨0, -249.95, 0⟩ 1 + specDamping 0 ≠ 0 ∧
    isPositionInWater ([] : List (R3 × R3)) ⟨0, -249.95, 0⟩ = false := by
  have hv : gravityCenter - (⟨0, -249.95, 0⟩ : R3) = ⟨0, -0.05, 0⟩ := by
    refine Vec3.eq_of_components ?_ ?_ ?_ <;> norm_num [gravityCenter]
  have hdistv : norm3 (⟨0, -0.05, 0⟩ : R3) = 0.05 := by
    have hns : (Vec3.mk (0 : ℝ) (-0.05) 0).normSq = (0.05 : ℝ) ^ 2 := by
      simp [Vec3.normSq]
      norm_num
    rw [norm3, hns, Real.sqrt_sq (by norm_num)]
  have hdist : norm3 (gravityCenter - (⟨0, -249.95, 0⟩ : R3)) = 0.05 := by
    rw [hv, hdistv]
  refine ⟨?_, ?_, rfl⟩
  · simp only [preStepForce, isPositionInWater, List.any_nil, Bool.false_eq_true,
      if_false]
    rw [hdist, if_neg (by norm_num)]
  · intro hcontra
    have hy := congrArg Vec3.y hcontra
    simp only [specGravityForce, specDamping] at hy
    rw [hv] at hy
    rw [hdistv] at hy
    simp only [Vec3.add_y, Vec3.smul_y, Vec3.zero_y, gravityStrength] at hy
    norm_num at hy

/-! ### C7 — broadcast position translation -/

/-- Claim C7: every `PlayerState` frame relayed to another participant carries
`(sender world_origin + sender local_position) − receiver world_origin`
(computed in `f64`, materialised as `f32` — exact in this model), and the
dynamic-object relative-position computation applies the same translation. -/
theorem C7_broadcast_translation (players : PlayerMap) (sender : PlayerId)
    (s : Player) (pos : Q3) (rot : Rot) (vel : Q3) (grounded swimming : Bool)
    (qid : PlayerId) (q : Player)
    (hs : alookup players sender = some s)
    (hmem : (qid, q) ∈ players) (hqs : qid ≠ sender) :
    (qid, ServerMessage.PlayerState sender
        ((s.worldOrigin + s.position) - q.worldOrigin) rot vel grounded swimming) ∈
      broadcastExcept players sender
        (.PlayerState sender pos rot vel grounded swimming) ∧
    (∀ (obj : DynamicObject) (origin : Q3),
      obj.getPositionRelativeTo origin = (obj.worldOrigin + obj.position) - origin) := by
  constructor
  · refine List.mem_filterMap.mpr ⟨(qid, q), hmem, ?_⟩
    simp [hqs, translateFor, hs, Player.getWorldPosition]
  · intro obj origin
    rfl

/-- Concrete players for the C7 witness: sender 1 is anchored at `(100,0,0)`
with local `(5,0,0)`; receiver 2 is anchored at `(30,0,0)`. -/
def playersC7 : PlayerMap :=
  [(1, { basePlayer 1 with worldOrigin := ⟨100, 0, 0⟩, position := ⟨5, 0, 0⟩ }),
   (2, { basePlayer 2 with worldOrigin := ⟨30, 0, 0⟩ })]

/-- Witness for C7: receiver 2 gets sender 1's `PlayerState` with position
`(100 + 5) − 30` on the x-axis. -/
theorem C7_broadcast_translation_witness :
    (2, ServerMessage.PlayerState 1
        (((⟨100, 0, 0⟩ : Q3) + ⟨5, 0, 0⟩) - ⟨30, 0, 0⟩) Rot.ident 0 false false) ∈
      broadcastExcept playersC7 1 (.PlayerState 1 ⟨5, 0, 0⟩ Rot.ident 0 false false) ∧
    (∀ (obj : DynamicObject) (origin : Q3),
      obj.getPositionRelativeTo origin = (obj.worldOrigin + obj.position) - origin) :=
  C7_broadcast_translation playersC7 1
    { basePlayer 1 with worldOrigin := ⟨100, 0, 0⟩, position := ⟨5, 0, 0⟩ }
    ⟨5, 0, 0⟩ Rot.ident 0 false false 2
    { basePlayer 2 with worldOrigin := ⟨30, 0, 0⟩ }
    (by decide) (by decide) (by decide)

/-! ### C8 — floating-origin recentering -/

theorem Vec3.zero_add_q (v : Q3) : (0 : Q3) + v = v := by
  refine Vec3.eq_of_components ?_ ?_ ?_ <;> simp

/-- Concrete state for C8: a single player anchored at the origin. -/
def stC8 : ServerState :=
  { players := [(1, basePlayer 1)]
    objects := []
    bodies := []
    waterVolumes := [] }

/-- Claim C8 (code bug): the live `PlayerUpdate` handler leaves player 1 with
local position `(2000, 0, 0)` — magnitude above the 1000 m threshold — with
the anchor untouched and no `OriginUpdate` (or any other) frame sent, whereas
the dead-code `Player::update_state`, which implements the documented
recentering, would have absorbed the offset into the anchor, zeroed the local
position and emitted `OriginUpdate`. -/
theorem C8_no_recenter_bug :
    ((alookup (handlePlayerUpdate stC8 1 ⟨2000, 0, 0⟩ Rot.ident 0 false).1.players
        1).map fun q => (q.position, q.worldOrigin)) =
      some (⟨2000, 0, 0⟩, (0 : Q3)) ∧
    (handlePlayerUpdate stC8 1 ⟨2000, 0, 0⟩ Rot.ident 0 false).2 = [] ∧
    (1000 * 1000 : ℚ) < (Vec3.mk (2000 : ℚ) 0 0).normSq ∧
    (basePlayer 1).updateState ⟨2000, 0, 0⟩ Rot.ident 0 false =
      ({ basePlayer 1 with worldOrigin := ⟨2000, 0, 0⟩, position := (0 : Q3) },
       some (.OriginUpdate ⟨2000, 0, 0⟩)) := by
  refine ⟨rfl, rfl, ?_, ?_⟩
  · simp [Vec3.normSq]
    norm_num
  · have hcond : (1000 * 1000 : ℚ) <
        (Vec3.mk (2000 : ℚ) 0 0).normSq := by
      simp [Vec3.normSq]
      norm_num
    simp only [Player.updateState, basePlayer, Option.isSome_none,
      Bool.false_eq_true, if_false]
    rw [if_pos hcond]
    rw [Vec3.zero_add_q]

/-! ### C9 — self-hit fire_weapon -/

/-- Concrete state for the C9 counterexample: sender 1 is dead; participant 2
is connected and alive. -/
def stC9 : ServerState :=
  { players := [(1, { basePlayer 1 with isDead := true }), (2, basePlayer 2)]
    objects := []
    bodies := []
    waterVolumes := [] }

/-- Counterexample to claim C9: a dead sender's self-hit `fire_weapon`
produces no frame at all — in particular participant 2 does NOT receive the
`WeaponFire` broadcast the claim asserts as the message's effect. -/
theorem C9_counterexample :
    (handleFireWeapon stC9 1 "pistol" 0 0 (some 1)).2 = [] ∧
    (2, ServerMessage.WeaponFire 1 "pistol" 0 0) ∉
      (handleFireWeapon stC9 1 "pistol" 0 0 (some 1)).2 ∧
    ((2 : PlayerId), basePlayer 2) ∈ stC9.players := by
  refine ⟨rfl, ?_, by decide⟩
  have h : (handleFireWeapon stC9 1 "pistol" 0 0 (some 1)).2 = ([] : Sends) := rfl
  rw [h]
  simp

/-- Claim C9 as amended: a `fire_weapon` whose `hit_player_id` is the sender
changes no state (no health or armor changes) and emits no `PlayerDamaged`
or `PlayerKilled`; every emitted frame is the `WeaponFire` relay to a
participant other than the sender, and when the sender is alive every other
participant receives it.  A dead sender's message has no effect at all. -/
theorem C9_self_hit_relay_only (st : ServerState) (p : PlayerId) (wt : String)
    (o d : Q3) :
    (handleFireWeapon st p wt o d (some p)).1 = st ∧
    (∀ q m, (q, m) ∈ (handleFireWeapon st p wt o d (some p)).2 →
      m = .WeaponFire p wt o d ∧ q ≠ p) ∧
    ((match alookup st.players p with
      | some pl => pl.isDead
      | none => false) = false →
      ∀ entry ∈ st.players, entry.1 ≠ p →
        (entry.1, ServerMessage.WeaponFire p wt o d) ∈
          (handleFireWeapon st p wt o d (some p)).2) := by
  cases hd : (match alookup st.players p with
    | some pl => pl.isDead
    | none => false) with
  | true =>
    refine ⟨?_, ?_, ?_⟩
    · simp [handleFireWeapon, hd]
    · intro q m hm
      simp [handleFireWeapon, hd] at hm
    · intro hcontra
      exact absurd hcontra (by simp)
  | false =>
    have hred : handleFireWeapon st p wt o d (some p) =
        (st, broadcastExcept st.players p (.WeaponFire p wt o d)) := by
      simp [handleFireWeapon, hd]
    refine ⟨?_, ?_, ?_⟩
    · rw [hred]
    · intro q m hm
      rw [hred] at hm
      obtain ⟨⟨a, b⟩, hab, hfa⟩ := List.mem_filterMap.mp hm
      have hfa2 : (if a = p then none
          else some (a, translateFor st.players p b (.WeaponFire p wt o d))) =
          some (q, m) := hfa
      by_cases hap : a = p
      · rw [if_pos hap] at hfa2
        exact absurd hfa2 (by simp)
      · rw [if_neg hap] at hfa2
        have h1 := Option.some.inj hfa2
        have hq : a = q := congrArg Prod.fst h1
        have hmsg : translateFor st.players p b (.WeaponFire p wt o d) = m :=
          congrArg Prod.snd h1
        exact ⟨hmsg.symm.trans rfl, fun hqp => hap (hq.trans hqp)⟩
    · intro _ entry hentry hne
      rw [hred]
      obtain ⟨eid, epl⟩ := entry
      refine List.mem_filterMap.mpr ⟨(eid, epl), hentry, ?_⟩
      show (if eid = p then none
        else some (eid, translateFor st.players p epl (.WeaponFire p wt o d))) = _
      rw [if_neg hne]
      rfl

/-- Concrete state for the C9 witness: both participants alive. -/
def stC9w : ServerState :=
  { players := [(1, basePlayer 1), (2, basePlayer 2)]
    objects := []
    bodies := []
    waterVolumes := [] }

/-- Witness for the amended C9: an alive sender's self-hit changes nothing
and participant 2 receives the `WeaponFire` relay. -/
theorem C9_self_hit_relay_only_witness :
    (handleFireWeapon stC9w 1 "pistol" 0 0 (some 1)).1 = stC9w ∧
    (2, ServerMessage.WeaponFire 1 "pistol" 0 0) ∈
      (handleFireWeapon stC9w 1 "pistol" 0 0 (some 1)).2 := by
  have h := C9_self_hit_relay_only stC9w 1 "pistol" 0 0
  exact ⟨h.1, h.2.2 rfl (2, basePlayer 2) (by decide) (by decide)⟩

/-! ### C10 — release/throw leave the lease in place -/

/-- Claim C10 as amended: a successful `release_object` or `throw_object`
replaces the object by `DynamicObject.release` of it — clearing exactly the
four grab fields — and leaves the `owner` lease unchanged, so
`check_ownership` answers afterwards exactly as before for every participant
and time; this keeps the lease holder's push authority until expiry but does
not make it exclusive, since any other participant's push overwrites the
lease. -/
theorem C10_release_preserves_lease (st : ServerState) (p : PlayerId)
    (objectId : String) (t : Time) (throwForce releasePoint : Q3)
    (obj : DynamicObject)
    (hobj : alookup st.objects objectId = some obj)
    (hg : obj.grabbedBy = some (p, t)) :
    alookup (handleReleaseObject st p objectId).1.objects objectId =
      some obj.release ∧
    alookup (handleThrowObject st p objectId throwForce releasePoint).1.objects
      objectId = some obj.release ∧
    obj.release.owner = obj.owner ∧
    (∀ q now, checkOwnership (handleReleaseObject st p objectId).1.objects
        objectId q now = checkOwnership st.objects objectId q now) ∧
    (∀ q now, checkOwnership
        (handleThrowObject st p objectId throwForce releasePoint).1.objects
        objectId q now = checkOwnership st.objects objectId q now) := by
  have hrel : releaseObjectM st.objects objectId p =
      (true, aupdate (fun _ => obj.release) st.objects objectId) := by
    unfold releaseObjectM
    rw [hobj]
    simp [DynamicObject.isGrabbedBy, hg]
  refine ⟨?_, ?_, rfl, ?_, ?_⟩
  · simp [handleReleaseObject, hrel, alookup_aupdate_self, hobj]
  · simp [handleThrowObject, hrel, alookup_aupdate_self, hobj]
  · intro q now
    simp [handleReleaseObject, hrel, checkOwnership, alookup_aupdate_self, hobj,
      DynamicObject.release]
  · intro q now
    simp [handleThrowObject, hrel, checkOwnership, alookup_aupdate_self, hobj,
      DynamicObject.release]

/-- The grabbed rock for the C10 scenarios: grabbed by player 1 at time 3 with
the grab's 30-second lease `(1, 33)`. -/
def objC10 : DynamicObject :=
  { baseObject with grabbedBy := some (1, 3)
                    grabOffset := some 0
                    isKinematicGhost := true
                    owner := some (1, 33) }

/-- Concrete state for the C10 witness. -/
def stC10w : ServerState :=
  { players := [(1, basePlayer 1)]
    objects := [("rock_1", objC10)]
    bodies := [(0, { baseBody with bodyType := .KinematicPositionBased })]
    waterVolumes := [] }

/-- Witness for the amended C10: releasing the grabbed rock clears its grab
fields, keeps the lease `(1, 33)`, and leaves `check_ownership` unchanged at
time 20. -/
theorem C10_release_preserves_lease_witness :
    alookup (handleReleaseObject stC10w 1 "rock_1").1.objects "rock_1" =
      some objC10.release ∧
    objC10.release.owner = objC10.owner ∧
    checkOwnership (handleReleaseObject stC10w 1 "rock_1").1.objects "rock_1" 1 20 =
      checkOwnership stC10w.objects "rock_1" 1 20 := by
  have h := C10_release_preserves_lease stC10w 1 "rock_1" 3 0 0 objC10 rfl rfl
  exact ⟨h.1, h.2.2.1, h.2.2.2.1 1 20⟩

/-- Concrete state for the C10 counterexample: `rock_1` released, its grab
lease `(1, 30)` still live, when player 2 pushes at time 5. -/
def stC10 : ServerState :=
  { players := [(1, basePlayer 1), (2, basePlayer 2)]
    objects := [("rock_1", { baseObject with owner := some (1, 30) })]
    bodies := [(0, baseBody)]
    waterVolumes := [] }

/-- Counterexample to claim C10's exclusivity: with player 1's post-release
lease live until 30, player 2's push at time 5 is accepted and overwrites the
lease with `(2, 10)` — player 1 does not keep exclusive push authority until
their lease expires. -/
theorem C10_counterexample :
    ((alookup (handlePushObject stC10 2 "rock_1" ⟨1, 0, 0⟩ 5).1.objects
        "rock_1").map DynamicObject.owner) = some (some (2, 10)) ∧
    (handlePushObject stC10 2 "rock_1" ⟨1, 0, 0⟩ 5).2 =
      [(2, .ObjectOwnershipGranted "rock_1" 2 5000)] ∧
    (5 : Time) < 30 ∧ (2 : PlayerId) ≠ 1 := by
  have h := pushObject_grant_spec stC10 2 "rock_1" ⟨1, 0, 0⟩ 5
    { baseObject with owner := some (1, 30) } (by decide) (by decide) (by decide)
  refine ⟨?_, h.2.1, by norm_num, by decide⟩
  · rw [h.1]
    norm_num

end CoopApi
